import Mathlib

/-!
Verification development for the WorldBest repository: a greeting function
(`src/worldbest/__init__.py`) and a CLI wrapper around Python's `argparse`
(`src/worldbest/cli.py`), shallowly embedded in Lean.
-/

namespace WorldBest

/-- The set of characters stripped by Python's `str.strip()` with no
arguments (the Unicode whitespace characters recognised by CPython's
`Py_UNICODE_ISSPACE`). -/
def pyIsSpace (c : Char) : Bool :=
  let n := c.toNat
  (0x09 ≤ n && n ≤ 0x0D) || n = 0x20 || (0x1C ≤ n && n ≤ 0x1F) ||
    n = 0x85 || n = 0xA0 || n = 0x1680 || (0x2000 ≤ n && n ≤ 0x200A) ||
    n = 0x2028 || n = 0x2029 || n = 0x202F || n = 0x205F || n = 0x3000

/-- Strip characters satisfying `p` from both ends of a character list:
the list-level core of Python's `str.strip()`. -/
def stripL (p : Char → Bool) (l : List Char) : List Char :=
  ((l.dropWhile p).reverse.dropWhile p).reverse

/-- Python's `name.strip()`: remove leading and trailing whitespace. -/
def pyStrip (s : String) : String :=
  ⟨stripL pyIsSpace s.data⟩

/-- The possible arguments of the Python call `greet(...)`:
the argument may be absent (so the default `"World"` applies), an explicit
string, or the explicit value `None`. -/
inductive GreetArg where
  | absent
  | strVal (s : String)
  | pyNone
deriving DecidableEq, Repr

/-- Embedding of `greet` from `src/worldbest/__init__.py`:

    def greet(name: str = "World") -> str:
        safe = name.strip() if name is not None else "World"
        return f"Hello, \x7bsafe\x7d!"

An absent argument takes the default value `"World"`; then `safe` is
`name.strip()` unless `name` is `None`, in which case it is `"World"`. -/
def greet (arg : GreetArg) : String :=
  let name : Option String :=
    match arg with
    | .absent => some "World"
    | .strVal s => some s
    | .pyNone => none
  let safe : String :=
    match name with
    | some s => pyStrip s
    | none => "World"
  "Hello, " ++ safe ++ "!"

/-! ### CLI model (`src/worldbest/cli.py`)

The CLI builds `argparse.ArgumentParser(prog="worldbest", description="WorldBest CLI")`
with one optional positional `name` (`nargs="?"`, default `"World"`) plus the
automatic `-h`/`--help` flag, then `main` prints `greet(ns.name)` and returns 0.
The model below embeds the observable process behavior: `argparse` may
terminate the process itself (help: exit 0; parse error: usage on stderr,
exit 2), and on a successful parse `main` prints the greeting plus a newline
and exits 0. -/

/-- The Unicode codepoint ranges matched by `\d` in CPython's `re` (category
Nd), used by argparse's negative-number matcher. Generated exhaustively from
CPython 3.11's `re.match(r"\d", chr(cp))` over all codepoints. -/
def ndRanges : List (Nat × Nat) :=
  [(48, 57), (1632, 1641), (1776, 1785), (1984, 1993), (2406, 2415),
   (2534, 2543), (2662, 2671), (2790, 2799), (2918, 2927), (3046, 3055),
   (3174, 3183), (3302, 3311), (3430, 3439), (3558, 3567), (3664, 3673),
   (3792, 3801), (3872, 3881), (4160, 4169), (4240, 4249), (6112, 6121),
   (6160, 6169), (6470, 6479), (6608, 6617), (6784, 6793), (6800, 6809),
   (6992, 7001), (7088, 7097), (7232, 7241), (7248, 7257), (42528, 42537),
   (43216, 43225), (43264, 43273), (43472, 43481), (43504, 43513),
   (43600, 43609), (44016, 44025), (65296, 65305), (66720, 66729),
   (68912, 68921), (69734, 69743), (69872, 69881), (69942, 69951),
   (70096, 70105), (70384, 70393), (70736, 70745), (70864, 70873),
   (71248, 71257), (71360, 71369), (71472, 71481), (71904, 71913),
   (72016, 72025), (72784, 72793), (73040, 73049), (73120, 73129),
   (92768, 92777), (92864, 92873), (93008, 93017), (120782, 120831),
   (123200, 123209), (123632, 123641), (125264, 125273), (130032, 130041)]

/-- A character matched by `\d` in CPython's `re` (Unicode decimal digit). -/
def pyIsDigitChar (c : Char) : Bool :=
  ndRanges.any (fun r => r.1 ≤ c.toNat && c.toNat ≤ r.2)

/-- `$` in a Python regex also matches just before one trailing newline, so
the negative-number matcher accepts one final `\n`. -/
def dropTrailingNewline (l : List Char) : List Char :=
  match l.reverse with
  | '\n' :: rest => rest.reverse
  | _ => l

/-- Tail of argparse's negative-number pattern after the `-`: `\d*\.\d+`. -/
def digitsDotDigits : List Char → Bool
  | [] => false
  | c :: rest =>
    if c = '.' then !rest.isEmpty && rest.all pyIsDigitChar
    else pyIsDigitChar c && digitsDotDigits rest

/-- argparse's negative-number matcher `^-\d+$|^-\d*\.\d+$` (`re.match`):
since this parser has no option strings that look like negative numbers,
matching tokens are treated as positionals. -/
def isNegNum (t : String) : Bool :=
  match dropTrailingNewline t.data with
  | '-' :: rest => (!rest.isEmpty && rest.all pyIsDigitChar) || digitsDotDigits rest
  | _ => false

/-- How argparse's `_parse_optional`/`consume_optional` treat one token of
this parser: a positional, a token that fires the help action, a token that
raises `ignored explicit argument` (carrying the offending explicit-argument
remainder quoted in the message), or an unrecognized option that is
collected into the extras. -/
inductive TokKind where
  | positional
  | helpTok
  | errIgnored (remaining : String)
  | unknown
deriving DecidableEq, Repr

/-- `consume_optional` on `-h` with an explicit argument: it retries the
tail one character at a time as further single-dash options, so the token
fires help iff the explicit part is a non-empty run of `h`; otherwise it
raises `ignored explicit argument` quoting the remainder from the first
non-`h` character (the empty explicit of `-h=` is quoted as `''`). -/
def clusterKind (explicitArg : String) : TokKind :=
  if explicitArg = "" then .errIgnored ""
  else if explicitArg.data.all (fun c => c = 'h') then .helpTok
  else .errIgnored (String.mk (explicitArg.data.dropWhile (fun c => c = 'h')))

/-- Split a token at its first `=`, as argparse splits long options. -/
def splitAtEq : List Char → List Char × Option (List Char)
  | [] => ([], none)
  | c :: rest =>
    if c = '=' then ([], some rest)
    else
      let r := splitAtEq rest
      (c :: r.1, r.2)

/-- The checks `_parse_optional` performs after no option matched: a token
that looks like a negative number or contains a space is a positional;
anything else dash-initial is an unrecognized option. -/
def fallbackKind (t : String) : TokKind :=
  if isNegNum t then .positional
  else if t.data.contains ' ' then .positional
  else .unknown

/-- Classification of one pre-`--` token, mirroring `_parse_optional` for
this parser (options `-h`/`--help`, prefix char `-`): non-dash tokens and
the bare `-` are positional; exact `-h`/`--help` fire help; a double-dash
token whose part before the first `=` is a prefix of `--help` is a help
abbreviation (firing help, or `ignored explicit argument` if an `=` is
present, since the help action takes no argument); `-h...` tokens go through
short-option cluster processing; everything else falls back to the
negative-number and contains-a-space checks. -/
def classify (t : String) : TokKind :=
  match t.data with
  | [] => .positional
  | c :: rest =>
    if c = '-' then
      if t = "-h" || t = "--help" then .helpTok
      else
        match rest with
        | [] => .positional
        | '-' :: _ =>
          let pe := splitAtEq t.data
          if List.isPrefixOf pe.1 "--help".data then
            match pe.2 with
            | none => .helpTok
            | some e => .errIgnored (String.mk e)
          else fallbackKind t
        | 'h' :: '=' :: e => clusterKind (String.mk e)
        | 'h' :: tail => clusterKind (String.mk tail)
        | _ => fallbackKind t
    else .positional

/-- The arguments before the first `--` separator (scanned for options). -/
def preSep (argv : List String) : List String :=
  argv.takeWhile (fun t => t ≠ "--")

/-- The arguments after the first `--` separator (all positional). -/
def postSep (argv : List String) : List String :=
  (argv.dropWhile (fun t => t ≠ "--")).drop 1

/-- The invocation's tokens with their classification, in argv order: the
first `--` is consumed as separator and everything after it is positional. -/
def tokenList (argv : List String) : List (String × TokKind) :=
  (preSep argv).map (fun t => (t, classify t)) ++
    (postSep argv).map (fun t => (t, TokKind.positional))

/-- The tokens argparse treats as positional arguments, in argv order. -/
def positionalsOf (argv : List String) : List String :=
  ((tokenList argv).filter (fun x => x.2 == TokKind.positional)).map (fun x => x.1)

/-- argparse's leftover arguments, in argv order: unrecognized options and
every positional after the first (the single `nargs="?"` positional consumes
the first positional token); the accumulator records whether the name
positional has been consumed. -/
def extrasAux : Bool → List (String × TokKind) → List String
  | true, (t, .positional) :: rest => t :: extrasAux true rest
  | false, (_, .positional) :: rest => extrasAux true rest
  | b, (t, .unknown) :: rest => t :: extrasAux b rest
  | b, (_, .helpTok) :: rest => extrasAux b rest
  | b, (_, .errIgnored _) :: rest => extrasAux b rest
  | _, [] => []

/-- The extras of an invocation (empty iff the parse succeeds). -/
def extrasOf (argv : List String) : List String :=
  extrasAux false (tokenList argv)

/-- An event that terminates parsing before the final unrecognized-arguments
check: the help action, or an `ignored explicit argument` error. -/
inductive StopEvent where
  | helpStop
  | ignoredStop (arg : String)
deriving DecidableEq, Repr

/-- Options are consumed in argv order, so the first token that fires help
or raises `ignored explicit argument` decides the outcome; unrecognized
options and positionals never stop the scan. -/
def firstStop : List (String × TokKind) → Option StopEvent
  | [] => none
  | (_, .helpTok) :: _ => some .helpStop
  | (_, .errIgnored e) :: _ => some (.ignoredStop e)
  | _ :: rest => firstStop rest

/-- Outcome of `parse_args`: a parsed name, a help request (argparse exits 0
during parsing), an `unrecognized arguments` error, or an
`ignored explicit argument` error (both exit 2). -/
inductive ParseOutcome where
  | ok (name : String)
  | help
  | unrecognized (extras : List String)
  | ignoredExplicit (arg : String)
deriving DecidableEq, Repr

/-- Embedding of `parse_args` from `src/worldbest/cli.py` together with the
argparse semantics it delegates to: the first help or ignored-explicit token
(in argv order) short-circuits parsing; otherwise leftover tokens make an
`unrecognized arguments` error (argparse raises it only after parsing
completes); otherwise the single optional positional (default `"World"`) is
the parsed name. Behavior validated token-for-token against CPython 3.11
argparse. -/
def parse_args (argv : List String) : ParseOutcome :=
  match firstStop (tokenList argv) with
  | some .helpStop => .help
  | some (.ignoredStop e) => .ignoredExplicit e
  | none =>
    if extrasOf argv ≠ [] then .unrecognized (extrasOf argv)
    else .ok ((positionalsOf argv).headD "World")

/-- Observable result of one process invocation: exit code, stdout, stderr. -/
structure ProcResult where
  exitCode : Nat
  stdout : String
  stderr : String
deriving DecidableEq, Repr

/-- The usage line argparse prints for this parser. -/
def usageLine : String := "usage: worldbest [-h] [name]\n"

/-- The help text printed to stdout for `-h`/`--help`. -/
def helpText : String :=
  usageLine ++ "\nWorldBest CLI\n\npositional arguments:\n  name        Name to greet\n\noptions:\n  -h, --help  show this help message and exit\n"

/-- The message argparse writes to stderr for `unrecognized arguments`. -/
def errorText (extras : List String) : String :=
  usageLine ++ "worldbest: error: unrecognized arguments: " ++
    String.intercalate " " extras ++ "\n"

/-- Escape backslashes and the chosen quote character, as Python's repr
does inside the quotes. -/
def escList (q : Char) : List Char → List Char
  | [] => []
  | c :: rest =>
    if c = '\\' || c = q then '\\' :: c :: escList q rest
    else c :: escList q rest

/-- Python repr quoting for the strings argparse interpolates into error
messages: single quotes, or double quotes when the string contains a single
quote and no double quote; backslashes and the quote character are escaped.
(repr's escaping of control characters is not modeled; no theorem asserts
the text of a message containing one.) -/
def pyRepr (s : String) : String :=
  let sq := Char.ofNat 39
  let dq := Char.ofNat 34
  let q : Char := if s.data.contains sq && !(s.data.contains dq) then dq else sq
  String.mk (q :: (escList q s.data ++ [q]))

/-- The message argparse writes to stderr for `ignored explicit argument`. -/
def ignoredText (arg : String) : String :=
  usageLine ++ "worldbest: error: argument -h/--help: ignored explicit argument " ++
    pyRepr arg ++ "\n"

/-- Embedding of `main` from `src/worldbest/cli.py`, including the terminal
behavior of the parser: on a successful parse it prints `greet(ns.name)`
followed by the newline added by `print` and returns 0; a help request exits
0 with help on stdout; either parse error exits 2 with the usage/error
message on stderr and nothing on stdout. -/
def main (argv : List String) : ProcResult :=
  match parse_args argv with
  | .ok name => ⟨0, greet (.strVal name) ++ "\n", ""⟩
  | .help => ⟨0, helpText, ""⟩
  | .unrecognized extras => ⟨2, "", errorText extras⟩
  | .ignoredExplicit e => ⟨2, "", ignoredText e⟩

/-! ### Helper lemmas about `dropWhile` and `stripL` -/

theorem dropWhile_self (p : Char → Bool) (l : List Char) :
    (l.dropWhile p).dropWhile p = l.dropWhile p := by
  induction l with
  | nil => rfl
  | cons a t ih =>
    by_cases hp : p a
    · rw [List.dropWhile_cons_of_pos hp]; exact ih
    · rw [List.dropWhile_cons_of_neg hp, List.dropWhile_cons_of_neg hp]

theorem dropWhile_head_false (p : Char → Bool) :
    ∀ (l : List Char) (x : Char) (xs : List Char),
      l.dropWhile p = x :: xs → p x = false := by
  intro l
  induction l with
  | nil => intro x xs h; simp [List.dropWhile] at h
  | cons a t ih =>
    intro x xs h
    by_cases hp : p a
    · rw [List.dropWhile_cons_of_pos hp] at h
      exact ih x xs h
    · rw [List.dropWhile_cons_of_neg hp] at h
      injection h with h1 h2
      rw [← h1]
      simpa using hp

theorem dropWhile_decomp (p : Char → Bool) (l : List Char) :
    ∃ t, l = t ++ l.dropWhile p := by
  induction l with
  | nil => exact ⟨[], rfl⟩
  | cons a t ih =>
    by_cases hp : p a
    · obtain ⟨u, hu⟩ := ih
      exact ⟨a :: u, by rw [List.dropWhile_cons_of_pos hp, List.cons_append, ← hu]⟩
    · exact ⟨[], by rw [List.dropWhile_cons_of_neg hp, List.nil_append]⟩

theorem stripL_idem (p : Char → Bool) (l : List Char) :
    stripL p (stripL p l) = stripL p l := by
  unfold stripL
  cases hb : (l.dropWhile p).reverse.dropWhile p with
  | nil => simp
  | cons y ys =>
    have hyys : List.dropWhile p (y :: ys) = y :: ys := by
      conv_lhs => rw [← hb]
      rw [dropWhile_self, hb]
    cases ha : l.dropWhile p with
    | nil =>
      rw [ha] at hb
      simp at hb
    | cons x rest =>
      have hpx : p x = false := dropWhile_head_false p l x rest ha
      obtain ⟨t, ht⟩ := dropWhile_decomp p (l.dropWhile p).reverse
      rw [hb, ha] at ht
      have ha2 : x :: rest = (y :: ys).reverse ++ t.reverse := by
        have h2 := congrArg List.reverse ht
        simpa using h2
      cases hc : (y :: ys).reverse with
      | nil => exact absurd (congrArg List.length hc) (by simp)
      | cons c cs =>
        rw [hc, List.cons_append] at ha2
        injection ha2 with hxc hrest
        have hpc : p c = false := hxc ▸ hpx
        rw [List.dropWhile_cons_of_neg (by simp [hpc])]
        have hrev : (c :: cs).reverse = y :: ys := by
          rw [← hc, List.reverse_reverse]
        rw [hrev, hyys, hc]

theorem pyStrip_idem (s : String) : pyStrip (pyStrip s) = pyStrip s :=
  congrArg String.mk (stripL_idem pyIsSpace s.data)

theorem stripL_all_space (l : List Char) (h : ∀ c ∈ l, pyIsSpace c) :
    stripL pyIsSpace l = [] := by
  unfold stripL
  rw [List.dropWhile_eq_nil_iff.mpr h]
  rfl

/-! ### Helper lemmas about the extras accumulator -/

/-- C1: for every string input whose whitespace-trimmed form is non-empty,
`greet` returns exactly `"Hello, "` followed by the trimmed input followed
by `"!"`. -/
theorem greet_trimmed_nonempty (s : String) (_h : pyStrip s ≠ "") :
    greet (.strVal s) = "Hello, " ++ pyStrip s ++ "!" :=
  rfl

/-- Witness for C1 at the spec's concrete input: `greet("  Bob  ")` returns
exactly `"Hello, Bob!"`. -/
theorem greet_trimmed_nonempty_witness :
    pyStrip "  Bob  " ≠ "" ∧ greet (.strVal "  Bob  ") = "Hello, Bob!" := by
  refine ⟨by decide, ?_⟩
  rw [greet_trimmed_nonempty "  Bob  " (by decide)]
  decide

/-- C2: calling `greet` with no argument returns exactly `"Hello, World!"`
(the default parameter value `"World"` is stripped, leaving `"World"`). -/
theorem greet_default_world : greet .absent = "Hello, World!" := by decide

/-- C3: for every explicitly provided input that is empty or consists only
of whitespace, `greet` substitutes the empty trimmed result verbatim and
returns exactly `"Hello, !"`; only an absent argument yields `"World"`. -/
theorem greet_whitespace_only (s : String) (h : ∀ c ∈ s.data, pyIsSpace c) :
    greet (.strVal s) = "Hello, !" ∧ greet .absent = "Hello, World!" := by
  have hs : pyStrip s = "" := by
    unfold pyStrip
    rw [stripL_all_space s.data h]
  constructor
  · show "Hello, " ++ pyStrip s ++ "!" = "Hello, !"
    rw [hs]
    decide
  · decide

/-- Witness for C3 at the concrete inputs `""` and `"  "`. -/
theorem greet_whitespace_only_witness :
    (∀ c ∈ ("" : String).data, pyIsSpace c) ∧ greet (.strVal "") = "Hello, !" ∧
      (∀ c ∈ ("  " : String).data, pyIsSpace c) ∧ greet (.strVal "  ") = "Hello, !" := by
  refine ⟨by decide, (greet_whitespace_only "" (by decide)).1,
    by decide, (greet_whitespace_only "  " (by decide)).1⟩

/-- C4 counterexample: the claim says an empty-after-trim Name makes `greet`
return `"Hello, World!"`, but `greet("")` returns `"Hello, !"`. -/
theorem greet_empty_not_world_counterexample :
    greet (.strVal "") = "Hello, !" ∧ greet (.strVal "") ≠ "Hello, World!" := by
  decide

/-- C4 amended: an absent Name (or the explicit value `None`) defaults to the
literal `"World"`, producing `"Hello, World!"`; a provided value that is empty
after trimming is substituted verbatim, producing `"Hello, !"`. -/
theorem greet_default_world_amended (s : String) (h : pyStrip s = "") :
    greet .absent = "Hello, World!" ∧ greet .pyNone = "Hello, World!" ∧
      greet (.strVal s) = "Hello, !" := by
  refine ⟨by decide, by decide, ?_⟩
  show "Hello, " ++ pyStrip s ++ "!" = "Hello, !"
  rw [h]
  decide

/-- Witness for the amended C4 at the concrete input `""`. -/
theorem greet_default_world_amended_witness :
    pyStrip "" = "" ∧ greet (.strVal "") = "Hello, !" :=
  ⟨by decide, (greet_default_world_amended "" (by decide)).2.2⟩

/-- C7: `greet` is total over its whole domain of string-or-absent(-or-None)
inputs: every input yields a greeting string of the shape
`"Hello, " ++ n ++ "!"`; the embedding is a pure total function, so there is
no error case and no side effect. -/
theorem greet_total (a : GreetArg) : ∃ n : String, greet a = "Hello, " ++ n ++ "!" := by
  cases a with
  | absent => exact ⟨pyStrip "World", rfl⟩
  | strVal s => exact ⟨pyStrip s, rfl⟩
  | pyNone => exact ⟨"World", rfl⟩

/-- C8: `greet` is deterministic: two calls on the same input yield the same
output string. -/
theorem greet_deterministic (a b : GreetArg) (h : a = b) : greet a = greet b := by
  rw [h]

/-- Witness for C8 at a concrete input. -/
theorem greet_deterministic_witness :
    greet (.strVal "Alice") = greet (.strVal "Alice") :=
  greet_deterministic (.strVal "Alice") (.strVal "Alice") rfl

/-- C9: passing the explicit value `None` takes the `else` branch of the
conditional expression, so the name is the literal `"World"` (no trimming)
and the result is exactly `"Hello, World!"`. -/
theorem greet_none_world : greet .pyNone = "Hello, World!" := by decide

/-- C10: `greet` is invariant under pre-trimming — `greet(trim(s)) = greet(s)`
for every string `s` — equivalently the trimming normalization inside `greet`
is idempotent. -/
theorem greet_trim_invariant (s : String) :
    greet (.strVal (pyStrip s)) = greet (.strVal s) ∧
      pyStrip (pyStrip s) = pyStrip s := by
  have h := pyStrip_idem s
  constructor
  · show "Hello, " ++ pyStrip (pyStrip s) ++ "!" = "Hello, " ++ pyStrip s ++ "!"
    rw [h]
  · exact h

/-! ### Claims about the CLI -/

/-- C5 counterexample: the claim says an accepted invocation prints exactly
"Hello, NAME followed by bang", but for the accepted single argument
`"  Bob  "` the program prints the trimmed greeting `"Hello, Bob!"`, not
`"Hello,   Bob  !"`. -/
theorem cli_untrimmed_counterexample :
    parse_args ["  Bob  "] = .ok "  Bob  " ∧
      main ["  Bob  "] = ⟨0, "Hello, Bob!\n", ""⟩ ∧
      (main ["  Bob  "]).stdout ≠ "Hello, " ++ "  Bob  " ++ "!" ++ "\n" := by
  decide

/-- C5 amended: for every CLI invocation the parser accepts with parsed name
NAME, `main` prints exactly `"Hello, T!"` followed by a newline to stdout
(stderr empty) and exits 0, where `T` is NAME with leading/trailing
whitespace removed; NAME defaults to `"World"` when no positional argument
is supplied. -/
theorem cli_success_trimmed (argv : List String) (name : String)
    (h : parse_args argv = .ok name) :
    main argv = ⟨0, "Hello, " ++ pyStrip name ++ "!" ++ "\n", ""⟩ ∧
      parse_args [] = .ok "World" := by
  constructor
  · unfold main
    rw [h]
    rfl
  · decide

/-- Witness for the amended C5 at the spec's end-to-end inputs: no arguments
prints `"Hello, World!"` and argument `Alice` prints `"Hello, Alice!"`, each
exiting 0. -/
theorem cli_success_trimmed_witness :
    parse_args ["Alice"] = .ok "Alice" ∧
      main ["Alice"] = ⟨0, "Hello, Alice!\n", ""⟩ ∧
      main [] = ⟨0, "Hello, World!\n", ""⟩ := by
  refine ⟨by decide, ?_, ?_⟩
  · rw [(cli_success_trimmed ["Alice"] "Alice" (by decide)).1]
    decide
  · rw [(cli_success_trimmed [] "World" (by decide)).1]
    decide

end WorldBest
